import Mathlib

/-!
Verification of `rios/bin/testcoords.py` (RIOS coordinate-access test).

The file under test is thin procedural glue: it precomputes expected block
corner/centre coordinate lists for three scenarios, drives an external
block-apply engine with a callback that accumulates observed coordinates,
and compares the accumulated lists against the expected ones.

Coordinates are modelled as exact rationals (`ℚ`).  The numeric constants
`DEFAULT_XLEFT`, `DEFAULT_YTOP`, `DEFAULT_PIXSIZE` (from `riostestutils`) and
`DEFAULTWINDOWXSIZE` (from `rios.applier`) are defined outside the sources
available here, so they are kept abstract as fields of `RampParams`; every
list definition below follows the formulas of `testcoords.py` verbatim in
terms of those parameters.
-/

/-- Modelled from the spec: the external constants `riostestutils.DEFAULT_XLEFT`,
`riostestutils.DEFAULT_YTOP`, `riostestutils.DEFAULT_PIXSIZE` and
`applier.DEFAULTWINDOWXSIZE` (image origin, pixel size, default tile size) are
not part of the sources here; they are abstract rational parameters. -/
structure RampParams where
  XSTART : ℚ
  YSTART : ℚ
  PIX : ℚ
  DEFAULTWINDOWXSIZE : ℚ
deriving DecidableEq

/-- `STEP = PIX * applier.DEFAULTWINDOWXSIZE`. -/
def STEP (p : RampParams) : ℚ := p.PIX * p.DEFAULTWINDOWXSIZE

/-- `HALFPIX = 0.5 * PIX`. -/
def HALFPIX (p : RampParams) : ℚ := (0.5 : ℚ) * p.PIX

/-- `OLAP = 2`. -/
def OLAP : ℕ := 2

/-- `MARGIN = OLAP * PIX`. -/
def MARGIN (p : RampParams) : ℚ := (OLAP : ℚ) * p.PIX

/-- `OFFSET_2ND_IMAGE = 100 * PIX`. -/
def OFFSET_2ND_IMAGE (p : RampParams) : ℚ := 100 * p.PIX

/-- `TESTNAME = "TESTCOORDS"`. -/
def TESTNAME : String := "TESTCOORDS"

/-- `[(XSTART + j * STEP, YSTART - i * STEP) for i in range(3) for j in range(3)]` -/
def CORNERS_1FILE_NOOVERLAP (p : RampParams) : List (ℚ × ℚ) :=
  (List.range 3).flatMap fun i => (List.range 3).map fun j =>
    (p.XSTART + (j : ℚ) * STEP p, p.YSTART - (i : ℚ) * STEP p)

/-- `[(XSTART + j * STEP + HALFPIX, YSTART - i * STEP - HALFPIX) for i in range(3) for j in range(3)]` -/
def CENTRES_1FILE_NOOVERLAP (p : RampParams) : List (ℚ × ℚ) :=
  (List.range 3).flatMap fun i => (List.range 3).map fun j =>
    (p.XSTART + (j : ℚ) * STEP p + HALFPIX p, p.YSTART - (i : ℚ) * STEP p - HALFPIX p)

/-- `[(XSTART + j * STEP - MARGIN, YSTART - i * STEP + MARGIN) for i in range(3) for j in range(3)]` -/
def CORNERS_1FILE_OVERLAP2 (p : RampParams) : List (ℚ × ℚ) :=
  (List.range 3).flatMap fun i => (List.range 3).map fun j =>
    (p.XSTART + (j : ℚ) * STEP p - MARGIN p, p.YSTART - (i : ℚ) * STEP p + MARGIN p)

/-- `[(XSTART + j * STEP + HALFPIX - MARGIN, YSTART - i * STEP - HALFPIX + MARGIN) for i in range(3) for j in range(3)]` -/
def CENTRES_1FILE_OVERLAP2 (p : RampParams) : List (ℚ × ℚ) :=
  (List.range 3).flatMap fun i => (List.range 3).map fun j =>
    (p.XSTART + (j : ℚ) * STEP p + HALFPIX p - MARGIN p,
     p.YSTART - (i : ℚ) * STEP p - HALFPIX p + MARGIN p)

/-- `[(XSTART + OFFSET_2ND_IMAGE + j * STEP - MARGIN, YSTART - OFFSET_2ND_IMAGE - i * STEP + MARGIN)
for i in range(2) for j in range(2)]` -/
def CORNERS_2FILE_OVERLAP2 (p : RampParams) : List (ℚ × ℚ) :=
  (List.range 2).flatMap fun i => (List.range 2).map fun j =>
    (p.XSTART + OFFSET_2ND_IMAGE p + (j : ℚ) * STEP p - MARGIN p,
     p.YSTART - OFFSET_2ND_IMAGE p - (i : ℚ) * STEP p + MARGIN p)

/-- `[(XSTART + OFFSET_2ND_IMAGE + j * STEP + HALFPIX - MARGIN,
YSTART - OFFSET_2ND_IMAGE - i * STEP - HALFPIX + MARGIN) for i in range(2) for j in range(2)]` -/
def CENTRES_2FILE_OVERLAP2 (p : RampParams) : List (ℚ × ℚ) :=
  (List.range 2).flatMap fun i => (List.range 2).map fun j =>
    (p.XSTART + OFFSET_2ND_IMAGE p + (j : ℚ) * STEP p + HALFPIX p - MARGIN p,
     p.YSTART - OFFSET_2ND_IMAGE p - (i : ℚ) * STEP p - HALFPIX p + MARGIN p)

/-- Modelled from the spec: the per-block `ReaderInfo` metadata object supplied
by the external apply engine to the callback, reduced to the two methods the
callback uses: `getPixCoord` (pixel indices to geographic coordinate) and
`getBlockCoordArrays` (a pair of row-column indexed coordinate arrays, one for
x and one for y). -/
structure ReaderInfo where
  getPixCoord : ℕ → ℕ → ℚ × ℚ
  getBlockCoordArrays : (ℕ → ℕ → ℚ) × (ℕ → ℕ → ℚ)

/-- The `applier.OtherInputs` user-data bag used by `testcoords.py`: the two
accumulator lists, plus an abstract `rest` standing for any further attributes
the bag may carry (used to state that the callback touches nothing else). -/
structure OtherInputs (α : Type) where
  cornersList : List (ℚ × ℚ)
  centresList : List (ℚ × ℚ)
  rest : α

/-- `getCoords(info, inputs, outputs, otherargs)`: appends the block's top-left
pixel corner coordinate to `otherargs.cornersList` and the first cell of the
block coordinate arrays to `otherargs.centresList`.  The `inputs`/`outputs`
block associations are unused by the body and omitted. -/
def getCoords {α : Type} (info : ReaderInfo) (otherargs : OtherInputs α) :
    OtherInputs α :=
  let xy := info.getPixCoord 0 0
  let oa := { otherargs with cornersList := otherargs.cornersList ++ [xy] }
  let xyArr := info.getBlockCoordArrays
  { oa with centresList := oa.centresList ++ [(xyArr.1 0 0, xyArr.2 0 0)] }

/-- Modelled from the spec: `applier.apply` (external engine) repeatedly invokes
the user callback with per-block metadata; the engine's behaviour in one apply
call is abstracted as the list of per-block `ReaderInfo` values it presents,
and the callback is folded over them in order. -/
def applyModel {α : Type} (infos : List ReaderInfo) (otherargs : OtherInputs α) :
    OtherInputs α :=
  infos.foldl (fun oa info => getCoords info oa) otherargs

/-- `checkCoordList(list1, list2)`: `ok = True`; set `ok = False` when the
lengths differ; then loop `for i in range(len(list1))` setting `ok = False` at
any index where the elements differ; return `ok`. -/
def checkCoordList (list1 list2 : List (ℚ × ℚ)) : Bool :=
  let ok := true
  let ok := if list1.length ≠ list2.length then false else ok
  if ok then
    (List.range list1.length).foldl
      (fun ok i => if list1.getD i (0, 0) ≠ list2.getD i (0, 0) then false else ok) ok
  else ok

-- Helper: a foldl that can only turn `true` into `false` is an `all`.
theorem foldl_sticky_false (q : ℕ → Prop) [DecidablePred q] (l : List ℕ) (b : Bool) :
    (l.foldl (fun ok i => if q i then false else ok) b) = (b && l.all fun i => decide ¬ q i) := by
  induction l generalizing b with
  | nil => simp
  | cons x xs ih =>
      rw [List.foldl_cons, ih, List.all_cons]
      by_cases hx : q x
      · simp [hx]
      · cases b <;> simp [hx]

-- Helper: same, for the `decide … && ok` normal form produced by simp.
theorem foldl_decide_and (q : ℕ → Prop) [DecidablePred q] (l : List ℕ) (b : Bool) :
    (l.foldl (fun ok i => decide (q i) && ok) b) = (b && l.all fun i => decide (q i)) := by
  induction l generalizing b with
  | nil => simp
  | cons x xs ih =>
      rw [List.foldl_cons, ih, List.all_cons]
      by_cases hx : q x
      · cases b <;> simp [hx]
      · simp [hx]

-- Helper: closed form of `checkCoordList`.
theorem checkCoordList_eval (list1 list2 : List (ℚ × ℚ)) :
    checkCoordList list1 list2 =
      (decide (list1.length = list2.length) &&
        (List.range list1.length).all fun i =>
          decide (list1.getD i (0, 0) = list2.getD i (0, 0))) := by
  unfold checkCoordList
  by_cases hlen : list1.length = list2.length
  · simp only [hlen, ne_eq]
    simp [foldl_decide_and]
  · simp [hlen]

/-- C2: `checkCoordList(list1, list2)` returns `True` if and only if the two
lists have equal length and are pairwise exactly equal (element-for-element
equality, no tolerance); in every other case it returns `False`. -/
theorem checkCoordList_true_iff_equal (list1 list2 : List (ℚ × ℚ)) :
    (checkCoordList list1 list2 = true ↔
      (list1.length = list2.length ∧
        ∀ i, i < list1.length → list1.getD i (0, 0) = list2.getD i (0, 0))) ∧
    (checkCoordList list1 list2 = false ↔
      ¬ (list1.length = list2.length ∧
        ∀ i, i < list1.length → list1.getD i (0, 0) = list2.getD i (0, 0))) := by
  have h : checkCoordList list1 list2 = true ↔
      (list1.length = list2.length ∧
        ∀ i, i < list1.length → list1.getD i (0, 0) = list2.getD i (0, 0)) := by
    rw [checkCoordList_eval]
    simp [List.all_eq_true, List.mem_range]
  refine ⟨h, ?_⟩
  rw [← h]
  cases checkCoordList list1 list2 <;> simp

/-- Witness for C2 at a concrete pair of equal lists. -/
theorem checkCoordList_true_iff_equal_witness :
    checkCoordList [((1 : ℚ), (2 : ℚ))] [((1 : ℚ), (2 : ℚ))] = true :=
  (checkCoordList_true_iff_equal [(1, 2)] [(1, 2)]).1.mpr ⟨rfl, by decide⟩

/-- Which of the two coordinate comparisons a mismatch report concerns. -/
inductive CoordKind where
  | corner
  | centre
deriving DecidableEq

/-- Modelled from the spec: `riostestutils.report(TESTNAME, msg)` emits one text
line naming the test; the formatted message content (the condition string,
which kind of coordinates mismatched, the accumulated list and the expected
list) is kept structured rather than rendered to a string. -/
structure Report where
  testName : String
  condition : String
  kind : CoordKind
  gotList : List (ℚ × ℚ)
  expectedList : List (ℚ × ℚ)
deriving DecidableEq

/-- `checkCoords(testConditionStr, otherargs, cornersList, centresList)`:
compares the accumulated lists against the expected ones, reporting a mismatch
line for each failed comparison.  The function body has no `return` statement,
so its Python return value is `None`, modelled as the `Option Bool` component
being `none`; the emitted report lines are the first component. -/
def checkCoords {α : Type} (testConditionStr : String) (otherargs : OtherInputs α)
    (cornersList centresList : List (ℚ × ℚ)) : List Report × Option Bool :=
  let ok := checkCoordList otherargs.cornersList cornersList
  let reps1 : List Report :=
    if ok then [] else
      [⟨TESTNAME, testConditionStr, CoordKind.corner, otherargs.cornersList, cornersList⟩]
  let ok := checkCoordList otherargs.centresList centresList
  let reps2 : List Report :=
    if ok then [] else
      [⟨TESTNAME, testConditionStr, CoordKind.centre, otherargs.centresList, centresList⟩]
  (reps1 ++ reps2, none)

/-- Python truthiness of the values relevant here: `None` is falsy, a bool is
itself.  Models `if not ok: allOK = False` in `run()`. -/
def pyTruthy : Option Bool → Bool
  | none => false
  | some b => b

/-- Observable events of `run()`, in program order: the start-of-test report,
raster file creation by `riostestutils.genRampImageFile`, the three
`applier.apply` calls, mismatch report lines, and `os.remove` calls. -/
inductive Ev where
  | reportStart (testName : String)
  | createFile (filename : String)
  | applyCall (idx : ℕ)
  | report (r : Report)
  | removeFile (filename : String)
deriving DecidableEq

/-- Modelled from the spec: the external collaborators of `run()`.  Each
`genRampImageFile` call either raises (`error`) or succeeds; each
`applier.apply` call either raises or drives the callback over some list of
blocks, abstracted as the `ReaderInfo` values presented. -/
structure Engine where
  genRamp1 : Except String Unit
  genRamp2 : Except String Unit
  apply1 : Except String (List ReaderInfo)
  apply2 : Except String (List ReaderInfo)
  apply3 : Except String (List ReaderInfo)

/-- `ramp1 = 'ramp1.img'`. -/
def ramp1 : String := "ramp1.img"

/-- `ramp2 = 'ramp2.img'`. -/
def ramp2 : String := "ramp2.img"

/-- `run()`: reports the test start, generates the two ramp images, runs the
three scenarios (each: reset the accumulator lists, apply, check against the
hard-wired answers, clear `allOK` when the check is falsy), removes the two
files and returns `allOK`.  A raised exception propagates (`Except.error`),
ending the run with the events so far. -/
def run (p : RampParams) (eng : Engine) : List Ev × Except String Bool :=
  let allOK := true
  let tr : List Ev := [Ev.reportStart TESTNAME]
  match eng.genRamp1 with
  | .error e => (tr, .error e)
  | .ok _ =>
    let tr := tr ++ [Ev.createFile ramp1]
    match eng.genRamp2 with
    | .error e => (tr, .error e)
    | .ok _ =>
      let tr := tr ++ [Ev.createFile ramp2]
      match eng.apply1 with
      | .error e => (tr, .error e)
      | .ok infos1 =>
        let tr := tr ++ [Ev.applyCall 1]
        let oa := applyModel infos1 (⟨[], [], ()⟩ : OtherInputs Unit)
        let res1 := checkCoords "1 file, overlap=0" oa
          (CORNERS_1FILE_NOOVERLAP p) (CENTRES_1FILE_NOOVERLAP p)
        let allOK := if pyTruthy res1.2 then allOK else false
        let tr := tr ++ res1.1.map Ev.report
        match eng.apply2 with
        | .error e => (tr, .error e)
        | .ok infos2 =>
          let tr := tr ++ [Ev.applyCall 2]
          let oa := applyModel infos2 (⟨[], [], ()⟩ : OtherInputs Unit)
          let res2 := checkCoords "1 file, overlap=2" oa
            (CORNERS_1FILE_OVERLAP2 p) (CENTRES_1FILE_OVERLAP2 p)
          let allOK := if pyTruthy res2.2 then allOK else false
          let tr := tr ++ res2.1.map Ev.report
          match eng.apply3 with
          | .error e => (tr, .error e)
          | .ok infos3 =>
            let tr := tr ++ [Ev.applyCall 3]
            let oa := applyModel infos3 (⟨[], [], ()⟩ : OtherInputs Unit)
            let res3 := checkCoords "2 files, overlap=2" oa
              (CORNERS_2FILE_OVERLAP2 p) (CENTRES_2FILE_OVERLAP2 p)
            let allOK := if pyTruthy res3.2 then allOK else false
            let tr := tr ++ res3.1.map Ev.report
            let tr := tr ++ [Ev.removeFile ramp1, Ev.removeFile ramp2]
            (tr, .ok allOK)

/-- All external calls in `run()` complete without raising. -/
def Engine.allOk (eng : Engine) : Prop :=
  eng.genRamp1 = .ok () ∧ eng.genRamp2 = .ok () ∧
    (∃ l, eng.apply1 = .ok l) ∧ (∃ l, eng.apply2 = .ok l) ∧ (∃ l, eng.apply3 = .ok l)

/-- C3: `checkCoords` has no return statement: for every test-condition string,
accumulator state and pair of expected lists it returns `None` (modelled
`none`), so any caller treating its result as a boolean success flag always
observes a falsy value. -/
theorem checkCoords_returns_none {α : Type} (testConditionStr : String)
    (otherargs : OtherInputs α) (cornersList centresList : List (ℚ × ℚ)) :
    (checkCoords testConditionStr otherargs cornersList centresList).2 = none ∧
    pyTruthy (checkCoords testConditionStr otherargs cornersList centresList).2 = false :=
  ⟨rfl, rfl⟩

/-- Witness for C3 at concrete arguments. -/
theorem checkCoords_returns_none_witness :
    (checkCoords "t" (⟨[], [], ()⟩ : OtherInputs Unit) [] []).2 = none ∧
    pyTruthy (checkCoords "t" (⟨[], [], ()⟩ : OtherInputs Unit) [] []).2 = false :=
  checkCoords_returns_none "t" ⟨[], [], ()⟩ [] []

/-- C8: `checkCoords` reports a corner-coordinates mismatch line (carrying the
accumulated and the expected list) exactly when `checkCoordList` on the corner
lists returns `False`, likewise for the centre lists, and emits no report line
when both comparisons succeed. -/
theorem checkCoords_reports_iff_mismatch {α : Type} (testConditionStr : String)
    (otherargs : OtherInputs α) (cornersList centresList : List (ℚ × ℚ)) :
    ((⟨TESTNAME, testConditionStr, CoordKind.corner, otherargs.cornersList,
        cornersList⟩ : Report) ∈
        (checkCoords testConditionStr otherargs cornersList centresList).1 ↔
      checkCoordList otherargs.cornersList cornersList = false) ∧
    ((⟨TESTNAME, testConditionStr, CoordKind.centre, otherargs.centresList,
        centresList⟩ : Report) ∈
        (checkCoords testConditionStr otherargs cornersList centresList).1 ↔
      checkCoordList otherargs.centresList centresList = false) ∧
    (checkCoordList otherargs.cornersList cornersList = true →
      checkCoordList otherargs.centresList centresList = true →
      (checkCoords testConditionStr otherargs cornersList centresList).1 = []) := by
  unfold checkCoords
  cases h1 : checkCoordList otherargs.cornersList cornersList <;>
    cases h2 : checkCoordList otherargs.centresList centresList <;>
      simp [h1, h2]

/-- Witness for C8: a length mismatch on the corner lists produces the corner
mismatch report. -/
theorem checkCoords_reports_iff_mismatch_witness :
    (⟨TESTNAME, "t", CoordKind.corner, ([] : List (ℚ × ℚ)),
        [((0 : ℚ), (0 : ℚ))]⟩ : Report) ∈
      (checkCoords "t" (⟨[], [], ()⟩ : OtherInputs Unit) [(0, 0)] []).1 :=
  (checkCoords_reports_iff_mismatch "t" ⟨[], [], ()⟩ [(0, 0)] []).1.mpr (by decide)

-- Helper: one callback invocation grows each accumulator list by one.
theorem getCoords_len {α : Type} (info : ReaderInfo) (oa : OtherInputs α) :
    (getCoords info oa).cornersList.length = oa.cornersList.length + 1 ∧
    (getCoords info oa).centresList.length = oa.centresList.length + 1 := by
  simp [getCoords]

-- Helper: folding the callback over n blocks grows each list by n.
theorem applyModel_lengths {α : Type} (infos : List ReaderInfo) (oa : OtherInputs α) :
    (applyModel infos oa).cornersList.length = oa.cornersList.length + infos.length ∧
    (applyModel infos oa).centresList.length = oa.centresList.length + infos.length := by
  induction infos generalizing oa with
  | nil => simp [applyModel]
  | cons info rest ih =>
      have h := ih (getCoords info oa)
      have hg := getCoords_len info oa
      simp only [applyModel, List.foldl_cons] at h ⊢
      refine ⟨?_, ?_⟩
      · rw [h.1, hg.1, List.length_cons]
        omega
      · rw [h.2, hg.2, List.length_cons]
        omega

/-- C10: every `getCoords` invocation appends exactly one tuple to
`otherargs.cornersList` and exactly one to `otherargs.centresList`, modifies
nothing else in `otherargs`, preserves the equal-lengths invariant, and after
`n` invocations starting from empty lists both lists have length `n`. -/
theorem getCoords_appends_one_each {α : Type} (info : ReaderInfo) (oa : OtherInputs α) :
    (getCoords info oa).cornersList = oa.cornersList ++ [info.getPixCoord 0 0] ∧
    (getCoords info oa).centresList =
      oa.centresList ++ [(info.getBlockCoordArrays.1 0 0, info.getBlockCoordArrays.2 0 0)] ∧
    (getCoords info oa).rest = oa.rest ∧
    (oa.cornersList.length = oa.centresList.length →
      (getCoords info oa).cornersList.length = (getCoords info oa).centresList.length) ∧
    (∀ (r : α) (infos : List ReaderInfo),
      (applyModel infos ⟨[], [], r⟩).cornersList.length = infos.length ∧
      (applyModel infos ⟨[], [], r⟩).centresList.length = infos.length) := by
  refine ⟨rfl, rfl, rfl, ?_, ?_⟩
  · intro h
    simp [getCoords, h]
  · intro r infos
    simpa using applyModel_lengths infos (⟨[], [], r⟩ : OtherInputs α)

/-- A concrete `ReaderInfo`, for witnesses. -/
def infoC : ReaderInfo := ⟨fun _ _ => (0, 0), (fun _ _ => 0, fun _ _ => 0)⟩

/-- Witness for C10: the equal-lengths invariant at a concrete invocation. -/
theorem getCoords_appends_one_each_witness :
    (getCoords infoC (⟨[], [], ()⟩ : OtherInputs Unit)).cornersList.length =
      (getCoords infoC (⟨[], [], ()⟩ : OtherInputs Unit)).centresList.length :=
  (getCoords_appends_one_each infoC ⟨[], [], ()⟩).2.2.2.1 rfl

/-- Concrete parameter values (origin `(0,0)`, pixel size `1`, window size `1`)
for counterexamples and witnesses. -/
def pC : RampParams := ⟨0, 0, 1, 1⟩

/-- C6: the single-file no-overlap expected lists are the analytic 3×3
row-major grid: element `3*i+j` of the corner list is
`(XSTART + j*STEP, YSTART - i*STEP)` and of the centre list the same point
displaced by `(+HALFPIX, -HALFPIX)`; each list has exactly 9 elements, top row
first and left to right within each row. -/
theorem noOverlap_lists_match_grid (p : RampParams) (i j : ℕ) (hi : i < 3) (hj : j < 3) :
    (CORNERS_1FILE_NOOVERLAP p).length = 9 ∧
    (CENTRES_1FILE_NOOVERLAP p).length = 9 ∧
    (CORNERS_1FILE_NOOVERLAP p).getD (3 * i + j) (0, 0) =
      (p.XSTART + (j : ℚ) * STEP p, p.YSTART - (i : ℚ) * STEP p) ∧
    (CENTRES_1FILE_NOOVERLAP p).getD (3 * i + j) (0, 0) =
      (p.XSTART + (j : ℚ) * STEP p + HALFPIX p, p.YSTART - (i : ℚ) * STEP p - HALFPIX p) := by
  interval_cases i <;> interval_cases j <;> exact ⟨rfl, rfl, rfl, rfl⟩

/-- Witness for C6 at concrete parameters, block row 1, column 2. -/
theorem noOverlap_lists_match_grid_witness :
    (CORNERS_1FILE_NOOVERLAP pC).length = 9 ∧
    (CENTRES_1FILE_NOOVERLAP pC).length = 9 ∧
    (CORNERS_1FILE_NOOVERLAP pC).getD (3 * 1 + 2) (0, 0) =
      (pC.XSTART + ((2 : ℕ) : ℚ) * STEP pC, pC.YSTART - ((1 : ℕ) : ℚ) * STEP pC) ∧
    (CENTRES_1FILE_NOOVERLAP pC).getD (3 * 1 + 2) (0, 0) =
      (pC.XSTART + ((2 : ℕ) : ℚ) * STEP pC + HALFPIX pC,
       pC.YSTART - ((1 : ℕ) : ℚ) * STEP pC - HALFPIX pC) :=
  noOverlap_lists_match_grid pC 1 2 (by decide) (by decide)

/-- C5: the single-file overlap-margin lists are the no-overlap lists shifted
outward by exactly one margin width in both axes, index for index:
`CORNERS_1FILE_OVERLAP2[k] = (CORNERS_1FILE_NOOVERLAP[k].x - MARGIN,
CORNERS_1FILE_NOOVERLAP[k].y + MARGIN)`, likewise for the centre lists; all
four lists have exactly 9 elements (the same 3×3 block count). -/
theorem overlap_lists_shift_by_margin (p : RampParams) (k : ℕ) (hk : k < 9) :
    (CORNERS_1FILE_NOOVERLAP p).length = 9 ∧
    (CENTRES_1FILE_NOOVERLAP p).length = 9 ∧
    (CORNERS_1FILE_OVERLAP2 p).length = 9 ∧
    (CENTRES_1FILE_OVERLAP2 p).length = 9 ∧
    (CORNERS_1FILE_OVERLAP2 p).getD k (0, 0) =
      (((CORNERS_1FILE_NOOVERLAP p).getD k (0, 0)).1 - MARGIN p,
       ((CORNERS_1FILE_NOOVERLAP p).getD k (0, 0)).2 + MARGIN p) ∧
    (CENTRES_1FILE_OVERLAP2 p).getD k (0, 0) =
      (((CENTRES_1FILE_NOOVERLAP p).getD k (0, 0)).1 - MARGIN p,
       ((CENTRES_1FILE_NOOVERLAP p).getD k (0, 0)).2 + MARGIN p) := by
  interval_cases k <;> exact ⟨rfl, rfl, rfl, rfl, rfl, rfl⟩

/-- Witness for C5 at concrete parameters and index 4. -/
theorem overlap_lists_shift_by_margin_witness :
    (CORNERS_1FILE_NOOVERLAP pC).length = 9 ∧
    (CENTRES_1FILE_NOOVERLAP pC).length = 9 ∧
    (CORNERS_1FILE_OVERLAP2 pC).length = 9 ∧
    (CENTRES_1FILE_OVERLAP2 pC).length = 9 ∧
    (CORNERS_1FILE_OVERLAP2 pC).getD 4 (0, 0) =
      (((CORNERS_1FILE_NOOVERLAP pC).getD 4 (0, 0)).1 - MARGIN pC,
       ((CORNERS_1FILE_NOOVERLAP pC).getD 4 (0, 0)).2 + MARGIN pC) ∧
    (CENTRES_1FILE_OVERLAP2 pC).getD 4 (0, 0) =
      (((CENTRES_1FILE_NOOVERLAP pC).getD 4 (0, 0)).1 - MARGIN pC,
       ((CENTRES_1FILE_NOOVERLAP pC).getD 4 (0, 0)).2 + MARGIN pC) :=
  overlap_lists_shift_by_margin pC 4 (by decide)

/-- C7: in every one of the three scenarios, each expected centre coordinate is
the expected corner coordinate of the same index displaced by exactly half a
pixel into the block: `CENTRES[k] = (CORNERS[k].x + HALFPIX, CORNERS[k].y -
HALFPIX)`. -/
theorem centres_are_corners_plus_halfpix (p : RampParams) (k : ℕ) :
    (k < 9 →
      (CENTRES_1FILE_NOOVERLAP p).getD k (0, 0) =
        (((CORNERS_1FILE_NOOVERLAP p).getD k (0, 0)).1 + HALFPIX p,
         ((CORNERS_1FILE_NOOVERLAP p).getD k (0, 0)).2 - HALFPIX p)) ∧
    (k < 9 →
      (CENTRES_1FILE_OVERLAP2 p).getD k (0, 0) =
        (((CORNERS_1FILE_OVERLAP2 p).getD k (0, 0)).1 + HALFPIX p,
         ((CORNERS_1FILE_OVERLAP2 p).getD k (0, 0)).2 - HALFPIX p)) ∧
    (k < 4 →
      (CENTRES_2FILE_OVERLAP2 p).getD k (0, 0) =
        (((CORNERS_2FILE_OVERLAP2 p).getD k (0, 0)).1 + HALFPIX p,
         ((CORNERS_2FILE_OVERLAP2 p).getD k (0, 0)).2 - HALFPIX p)) := by
  refine ⟨fun hk => ?_, fun hk => ?_, fun hk => ?_⟩
  · interval_cases k <;> exact rfl
  · interval_cases k <;>
      simp [CENTRES_1FILE_OVERLAP2, CORNERS_1FILE_OVERLAP2, List.range_succ, Prod.ext_iff] <;>
        constructor <;> ring
  · interval_cases k <;>
      simp [CENTRES_2FILE_OVERLAP2, CORNERS_2FILE_OVERLAP2, List.range_succ, Prod.ext_iff] <;>
        constructor <;> ring

/-- Witness for C7 at concrete parameters, index 0 of the two-file lists. -/
theorem centres_are_corners_plus_halfpix_witness :
    (CENTRES_2FILE_OVERLAP2 pC).getD 0 (0, 0) =
      (((CORNERS_2FILE_OVERLAP2 pC).getD 0 (0, 0)).1 + HALFPIX pC,
       ((CORNERS_2FILE_OVERLAP2 pC).getD 0 (0, 0)).2 - HALFPIX pC) :=
  (centres_are_corners_plus_halfpix pC 0).2.2 (by decide)

/-- C4 counterexample: with origin `(0, 0)`, pixel size `1` and window size
`1`, element `2*0+0` of `CORNERS_2FILE_OVERLAP2` is `(98, -98)`, not the
claimed `(XSTART + 0*STEP - MARGIN, YSTART - 0*STEP + MARGIN) = (-2, 2)` at
the union-footprint origin `(XSTART, YSTART)`. -/
theorem corners_2file_claim_false_at_origin :
    ¬ ((CORNERS_2FILE_OVERLAP2 pC).getD (2 * 0 + 0) (0, 0) =
      (pC.XSTART + ((0 : ℕ) : ℚ) * STEP pC - MARGIN pC,
       pC.YSTART - ((0 : ℕ) : ℚ) * STEP pC + MARGIN pC)) := by
  simp [CORNERS_2FILE_OVERLAP2, List.range_succ, pC, STEP, MARGIN, OFFSET_2ND_IMAGE,
    OLAP, Prod.ext_iff]

/-- C4 (amended): the two-file expected lists form a 2×2 row-major block grid
whose origin is the second raster's origin `(XSTART + OFFSET_2ND_IMAGE,
YSTART - OFFSET_2ND_IMAGE)` — the top-left of the intersection footprint of
the two rasters, not `(XSTART, YSTART)`: element `2*i+j` of the corner list
equals `(XSTART + OFFSET_2ND_IMAGE + j*STEP - MARGIN, YSTART -
OFFSET_2ND_IMAGE - i*STEP + MARGIN)`, and both two-file lists have exactly 4
elements. -/
theorem corners_2file_grid_at_offset_origin (p : RampParams) (i j : ℕ)
    (hi : i < 2) (hj : j < 2) :
    (CORNERS_2FILE_OVERLAP2 p).length = 4 ∧
    (CENTRES_2FILE_OVERLAP2 p).length = 4 ∧
    (CORNERS_2FILE_OVERLAP2 p).getD (2 * i + j) (0, 0) =
      (p.XSTART + OFFSET_2ND_IMAGE p + (j : ℚ) * STEP p - MARGIN p,
       p.YSTART - OFFSET_2ND_IMAGE p - (i : ℚ) * STEP p + MARGIN p) := by
  interval_cases i <;> interval_cases j <;> exact ⟨rfl, rfl, rfl⟩

/-- Witness for the amended C4 at concrete parameters, block row 1, column 0. -/
theorem corners_2file_grid_at_offset_origin_witness :
    (CORNERS_2FILE_OVERLAP2 pC).length = 4 ∧
    (CENTRES_2FILE_OVERLAP2 pC).length = 4 ∧
    (CORNERS_2FILE_OVERLAP2 pC).getD (2 * 1 + 0) (0, 0) =
      (pC.XSTART + OFFSET_2ND_IMAGE pC + ((0 : ℕ) : ℚ) * STEP pC - MARGIN pC,
       pC.YSTART - OFFSET_2ND_IMAGE pC - ((1 : ℕ) : ℚ) * STEP pC + MARGIN pC) :=
  corners_2file_grid_at_offset_origin pC 1 0 (by decide) (by decide)

/-- A block whose reported top-left corner is `c` and whose coordinate arrays
put the first cell at `m`, for building concrete engine behaviours. -/
def mkInfo (c m : ℚ × ℚ) : ReaderInfo :=
  ⟨fun _ _ => c, (fun _ _ => m.1, fun _ _ => m.2)⟩

-- Helper: folding the callback over `zipWith mkInfo cs ms` accumulates exactly
-- `cs` and `ms`.
theorem applyModel_zipWith {α : Type} (cs ms : List (ℚ × ℚ)) (h : cs.length = ms.length)
    (oa : OtherInputs α) :
    applyModel (List.zipWith mkInfo cs ms) oa =
      ⟨oa.cornersList ++ cs, oa.centresList ++ ms, oa.rest⟩ := by
  induction cs generalizing ms oa with
  | nil =>
      cases ms with
      | nil => simp [applyModel]
      | cons m mss => simp at h
  | cons c css ih =>
      cases ms with
      | nil => simp at h
      | cons m mss =>
          have h2 : css.length = mss.length := by simpa using h
          simp only [List.zipWith_cons_cons, applyModel, List.foldl_cons]
          have hrec := ih mss h2 (getCoords (mkInfo c m) oa)
          simp only [applyModel] at hrec
          rw [hrec]
          simp [getCoords, mkInfo]

-- Helper: a list always compares equal to itself.
theorem checkCoordList_refl (l : List (ℚ × ℚ)) : checkCoordList l l = true := by
  rw [checkCoordList_eval]
  simp

-- Helper: when the engine delivers exactly the expected coordinates,
-- `checkCoords` emits no report line.
theorem checkCoords_perfect_no_reports (s : String) (cs ms : List (ℚ × ℚ))
    (h : cs.length = ms.length) :
    (checkCoords s (applyModel (List.zipWith mkInfo cs ms)
        (⟨[], [], ()⟩ : OtherInputs Unit)) cs ms).1 = [] := by
  rw [applyModel_zipWith cs ms h]
  simp [checkCoords, checkCoordList_refl]

/-- Whether an event is a mismatch report line. -/
def isReportEv : Ev → Bool
  | .report _ => true
  | _ => false

/-- The engine behaviour in which every external call succeeds and each apply
traversal reports exactly the expected block coordinates, so that all three
sub-checks of `run()` pass. -/
def engPerfect (p : RampParams) : Engine :=
  ⟨.ok (), .ok (),
   .ok (List.zipWith mkInfo (CORNERS_1FILE_NOOVERLAP p) (CENTRES_1FILE_NOOVERLAP p)),
   .ok (List.zipWith mkInfo (CORNERS_1FILE_OVERLAP2 p) (CENTRES_1FILE_OVERLAP2 p)),
   .ok (List.zipWith mkInfo (CORNERS_2FILE_OVERLAP2 p) (CENTRES_2FILE_OVERLAP2 p))⟩

/-- C1 (code bug): the claim says `run()` returns `True` when all three
sub-checks pass.  In fact, because `checkCoords` returns `None`, the `if not
ok` test in `run()` always fires: with an engine that delivers exactly the
expected coordinates (every sub-check passes, witnessed by the absence of any
mismatch report line), `run()` still returns `False`; more generally it
returns `False` for every engine whose external calls complete without
raising. -/
theorem run_returns_false_despite_subchecks_passing (p : RampParams) :
    ((run p (engPerfect p)).1.filter isReportEv = []) ∧
    ((run p (engPerfect p)).2 = Except.ok false) ∧
    (∀ eng : Engine, eng.allOk → (run p eng).2 = Except.ok false) := by
  have hall : ∀ eng : Engine, eng.allOk → (run p eng).2 = Except.ok false := by
    intro eng h
    rcases eng with ⟨g1, g2, a1, a2, a3⟩
    obtain ⟨h1, h2, ⟨l1, h3⟩, ⟨l2, h4⟩, ⟨l3, h5⟩⟩ := h
    simp only at h1 h2 h3 h4 h5
    subst h1; subst h2; subst h3; subst h4; subst h5
    simp [run, checkCoords, pyTruthy]
  refine ⟨?_, hall (engPerfect p) ⟨rfl, rfl, ⟨_, rfl⟩, ⟨_, rfl⟩, ⟨_, rfl⟩⟩, hall⟩
  have e1 := checkCoords_perfect_no_reports "1 file, overlap=0"
    (CORNERS_1FILE_NOOVERLAP p) (CENTRES_1FILE_NOOVERLAP p) rfl
  have e2 := checkCoords_perfect_no_reports "1 file, overlap=2"
    (CORNERS_1FILE_OVERLAP2 p) (CENTRES_1FILE_OVERLAP2 p) rfl
  have e3 := checkCoords_perfect_no_reports "2 files, overlap=2"
    (CORNERS_2FILE_OVERLAP2 p) (CENTRES_2FILE_OVERLAP2 p) rfl
  simp [run, engPerfect, e1, e2, e3, isReportEv]

/-- Witness for C1 at concrete parameters and the all-passing engine. -/
theorem run_returns_false_despite_subchecks_passing_witness :
    (run pC (engPerfect pC)).2 = Except.ok false :=
  (run_returns_false_despite_subchecks_passing pC).2.2 (engPerfect pC)
    ⟨rfl, rfl, ⟨_, rfl⟩, ⟨_, rfl⟩, ⟨_, rfl⟩⟩

/-- C9: on the success path (no external call raises), the event trace of
`run()` starts with the test report and the creation of `ramp1.img` and
`ramp2.img` — both before any apply call — and ends with the removal of both
files, whatever the check outcomes (the report lists are arbitrary); if any
call raises, no file removal ever appears in the trace. -/
theorem run_creates_then_removes_files (p : RampParams) (eng : Engine) :
    (eng.allOk →
      ∃ reps1 reps2 reps3 : List Report,
        (run p eng).1 =
          [Ev.reportStart TESTNAME, Ev.createFile ramp1, Ev.createFile ramp2, Ev.applyCall 1]
            ++ reps1.map Ev.report ++ [Ev.applyCall 2] ++ reps2.map Ev.report
            ++ [Ev.applyCall 3] ++ reps3.map Ev.report
            ++ [Ev.removeFile ramp1, Ev.removeFile ramp2]) ∧
    (¬ eng.allOk → ∀ f, Ev.removeFile f ∉ (run p eng).1) := by
  rcases eng with ⟨g1, g2, a1, a2, a3⟩
  constructor
  · intro h
    obtain ⟨h1, h2, ⟨l1, h3⟩, ⟨l2, h4⟩, ⟨l3, h5⟩⟩ := h
    simp only at h1 h2 h3 h4 h5
    subst h1; subst h2; subst h3; subst h4; subst h5
    refine ⟨(checkCoords "1 file, overlap=0" (applyModel l1 ⟨[], [], ()⟩)
        (CORNERS_1FILE_NOOVERLAP p) (CENTRES_1FILE_NOOVERLAP p)).1,
      (checkCoords "1 file, overlap=2" (applyModel l2 ⟨[], [], ()⟩)
        (CORNERS_1FILE_OVERLAP2 p) (CENTRES_1FILE_OVERLAP2 p)).1,
      (checkCoords "2 files, overlap=2" (applyModel l3 ⟨[], [], ()⟩)
        (CORNERS_2FILE_OVERLAP2 p) (CENTRES_2FILE_OVERLAP2 p)).1, ?_⟩
    simp [run, List.append_assoc]
  · intro h f
    cases g1 with
    | error e => simp [run]
    | ok u =>
      cases u
      cases g2 with
      | error e => simp [run]
      | ok u2 =>
        cases u2
        cases a1 with
        | error e => simp [run]
        | ok l1 =>
          cases a2 with
          | error e => simp [run]
          | ok l2 =>
            cases a3 with
            | error e => simp [run]
            | ok l3 =>
              exact absurd ⟨rfl, rfl, ⟨l1, rfl⟩, ⟨l2, rfl⟩, ⟨l3, rfl⟩⟩ h

/-- An engine whose external calls all succeed but whose apply traversals
present no blocks at all (every sub-check fails). -/
def engEmpty : Engine := ⟨.ok (), .ok (), .ok [], .ok [], .ok []⟩

/-- An engine whose first raster-generation call raises. -/
def engFail : Engine := ⟨.error "gen failed", .ok (), .ok [], .ok [], .ok []⟩

/-- Witness for C9: the success-path trace shape at a concrete engine, and the
absence of removals when the first external call raises. -/
theorem run_creates_then_removes_files_witness :
    (∃ reps1 reps2 reps3 : List Report,
      (run pC engEmpty).1 =
        [Ev.reportStart TESTNAME, Ev.createFile ramp1, Ev.createFile ramp2, Ev.applyCall 1]
          ++ reps1.map Ev.report ++ [Ev.applyCall 2] ++ reps2.map Ev.report
          ++ [Ev.applyCall 3] ++ reps3.map Ev.report
          ++ [Ev.removeFile ramp1, Ev.removeFile ramp2]) ∧
    (∀ f, Ev.removeFile f ∉ (run pC engFail).1) :=
  ⟨(run_creates_then_removes_files pC engEmpty).1 ⟨rfl, rfl, ⟨_, rfl⟩, ⟨_, rfl⟩, ⟨_, rfl⟩⟩,
   (run_creates_then_removes_files pC engFail).2
     (by intro hc; simpa [engFail] using hc.1)⟩
